import Mathlib

/-!
# Verification of the WereSync boot-loader installation plugins

Shallow embedding of `src/weresync/plugins/weresync_grub2.py`
(`GrubPlugin.install_bootloader`) and
`src/weresync/plugins/weresync_uuid_copy.py` (`UUIDPlugin.install_bootloader`).

The two plugins are single-threaded, exception-based Python procedures acting
on a target block device through the copier's `target` handle
(`get_partitions`, `mount_point`, `mount_partition`, `unmount_partition`,
`device`) plus a handful of filesystem and process effects.  The embedding
threads an explicit state (`St`: current mount table, the grub.cfg file's
permission bits and content, and an event trace) through each step, and every
step that can raise returns an `Option Err` alongside the updated state, so
that Python's `try`/`except`/`finally` control flow is modelled explicitly.

Partitions are identified by `Nat` (the partition numbers returned by
`get_partitions`).  Whether a mount, unmount, or the external `grub-install`
process succeeds, and whether a partition's filesystem contains the marker
directory (`boot/grub` for the grub2 plugin, `boot` for the uuid_copy plugin),
are given by the environment (`Target`, `Env`): the markers are properties of
the partition's content, independent of where it happens to be mounted.
-/

/-- Exceptions that can escape the embedded code.  `deviceError` and
`copyError` mirror `weresync.exception.DeviceError` / `CopyError`
(device name or message, short message, optional long diagnostic);
`attributeError` and `ioError` stand for the corresponding Python built-in
exception classes, which are *not* subclasses of `DeviceError` and therefore
are not caught by `except DeviceError` handlers. -/
inductive Err where
  | deviceError (device : String) (message : String) (diag : Option String)
  | copyError (message : String)
  | attributeError (message : String)
  | ioError (message : String)
deriving DecidableEq, Repr

/-- `True` exactly on the `DeviceError` class: this is what an
`except DeviceError` clause catches. -/
def isDeviceError : Err → Bool
  | .deviceError _ _ _ => true
  | _ => false

/-- Observable events of one `install_bootloader` invocation, in program
order.  `probed i` marks the start of one scan-loop iteration over partition
`i`; `mounted`/`unmounted` are successful `mount_partition` /
`unmount_partition` calls; `warned` is a `LOGGER.warning` call; `translated`
is a `plugins.translate_uuid(copier, part, path, mount_point)` call;
`rewroteCfg` is the in-place grub.cfg rewrite; `ranInstaller` records the
argument vector handed to `subprocess.Popen`. -/
inductive Event where
  | probed (part : Nat)
  | mounted (part : Nat) (path : String)
  | unmounted (part : Nat)
  | warned (message : String)
  | translated (part : Nat) (path : String)
  | rewroteCfg (path : String)
  | ranInstaller (cmd : List String)
deriving DecidableEq, Repr

/-- Mutable state threaded through an invocation: the mount table of the
target device (association list partition ↦ mount path), the permission bits
and text content of the grub configuration file on the selected root
filesystem, and the trace of events so far. -/
structure St where
  mounts : List (Nat × String)
  cfgPerms : Nat
  cfgContent : String
  trace : List Event
deriving DecidableEq, Repr

/-- The target device as seen through `copier.target`: partition enumeration
order, the device's path name, and the environment-determined outcomes of
mount/unmount attempts and marker-directory checks.  `hasBootGrub i`
(resp. `hasBoot i`) says that partition `i`'s filesystem contains a
`boot/grub` (resp. `boot`) directory at its root — a property of the
partition's content, checked via `os.path.exists` under whatever path the
partition is mounted at. -/
structure Target where
  parts : List Nat
  device : String
  mountOk : Nat → Bool
  unmountOk : Nat → Bool
  hasBootGrub : Nat → Bool
  hasBoot : Nat → Bool

/-- `copier.target.mount_point(i)`: the current mount path of partition `i`,
or `none` when unmounted. -/
def lookupMount (m : List (Nat × String)) (i : Nat) : Option String :=
  match m.find? (fun p => p.1 == i) with
  | some p => some p.2
  | none => none

/-- Record partition `i` as mounted at `path`. -/
def setMount (m : List (Nat × String)) (i : Nat) (path : String) :
    List (Nat × String) :=
  (i, path) :: m.filter (fun p => p.1 != i)

/-- Record partition `i` as unmounted. -/
def delMount (m : List (Nat × String)) (i : Nat) : List (Nat × String) :=
  m.filter (fun p => p.1 != i)

/-- Append one event to the trace. -/
def addTrace (s : St) (e : Event) : St :=
  { s with trace := s.trace ++ [e] }

/-- `copier.target.mount_partition(i, path)`: on success updates the mount
table and the trace; on failure raises a `DeviceError` naming the device and
leaves the state unchanged (the message text is the model's own, the mount
primitive itself lives in `weresync.device`, outside this core). -/
def mountPart (t : Target) (i : Nat) (path : String) (s : St) :
    Option Err × St :=
  if t.mountOk i then
    (none, { s with mounts := setMount s.mounts i path,
                    trace := s.trace ++ [.mounted i path] })
  else
    (some (.deviceError t.device ("could not mount partition " ++ toString i)
      none), s)

/-- `copier.target.unmount_partition(i)`: on success removes the mount-table
entry and records the event; on failure raises a `DeviceError` and leaves the
state unchanged. -/
def unmountPart (t : Target) (i : Nat) (s : St) : Option Err × St :=
  if t.unmountOk i then
    (none, { s with mounts := delMount s.mounts i,
                    trace := s.trace ++ [.unmounted i] })
  else
    (some (.deviceError t.device
      ("could not unmount partition " ++ toString i) none), s)

/-- `mount_point + ("/" if not mount_point.endswith("/") else "")`. -/
def ensureSlash (p : String) : String :=
  if p.endsWith "/" then p else p ++ "/"

/-- First key of the map that is a (non-empty) prefix of the character
stream; returns the replacement and the rest of the stream past the key. -/
def firstKeyMatch (map : List (String × String)) (cs : List Char) :
    Option (List Char × List Char) :=
  match map with
  | [] => none
  | (k, v) :: rest =>
      if k.toList ≠ [] && k.toList.isPrefixOf cs then
        some (v.toList, cs.drop k.toList.length)
      else firstKeyMatch rest cs

/-- Fuel-indexed single left-to-right pass: at each position apply the first
matching key and skip past its replacement, so replaced text is never
re-matched. -/
def multireplaceAux (map : List (String × String)) :
    Nat → List Char → List Char
  | 0, cs => cs
  | _ + 1, [] => []
  | fuel + 1, c :: cs =>
      match firstKeyMatch map (c :: cs) with
      | some (v, rest) => v ++ multireplaceAux map fuel rest
      | none => c :: multireplaceAux map fuel cs

/-- Modelled from the spec: `weresync.device.multireplace` (module
`weresync.device` is not under `src/`).  The spec's Identifier Translator
performs one combined multi-pattern scan replacing every occurrence of each
old identifier with its mapped new identifier, such that text inserted by one
replacement cannot be re-matched by a later one; modelled as a single
left-to-right pass applying, at each position, the first matching key of the
map. -/
def multireplace (s : String) (map : List (String × String)) : String :=
  ⟨multireplaceAux map s.toList.length s.toList⟩

/-- The environment of one `GrubPlugin.install_bootloader` invocation: the
target device, the copier's UUID dictionary (`copier.get_uuid_dict()`),
whether the grub.cfg read/write phase succeeds (`cfgWriteOk`; when `false`
the `with open(...)` block raises and leaves `cfgFailContent` behind), and
the external `grub-install` process's exit code and captured combined
stdout/stderr. -/
structure Env where
  target : Target
  uuidDict : List (String × String)
  cfgWriteOk : Bool
  cfgFailContent : String
  installerRc : Nat
  installerOutput : String

/-- The scan loop's `except DeviceError` handler:
`LOGGER.warning("Could not mount partition {0}. Assumed to not be the "
"partition grub is on.".format(i))`. -/
def scanWarn (i : Nat) (s : St) : St :=
  addTrace s (.warned ("Could not mount partition " ++ toString i ++
    ". Assumed to not be the partition grub is on."))

/-- One iteration of the grub2 plugin's root-partition scan loop
(`weresync_grub2.py` lines 42–59): query `mount_point(i)`; if unmounted,
`mount_partition(i, target_mnt)`; check `os.path.exists(<mount>/boot/grub)`;
on the marker `break` (leaving the partition mounted), otherwise
`unmount_partition(i)`; any `DeviceError` is caught, logged as a warning,
and the loop continues.  Returns `true` when the iteration selected `i`. -/
def grubProbe (t : Target) (tm : String) (i : Nat) (s0 : St) : Bool × St :=
  let s := addTrace s0 (.probed i)
  match lookupMount s.mounts i with
  | some _ =>
      if t.hasBootGrub i then (true, s)
      else
        match unmountPart t i s with
        | (none, s1) => (false, s1)
        | (some _, s1) => (false, scanWarn i s1)
  | none =>
      match mountPart t i tm s with
      | (some _, s1) => (false, scanWarn i s1)
      | (none, s1) =>
          if t.hasBootGrub i then (true, s1)
          else
            match unmountPart t i s1 with
            | (none, s2) => (false, s2)
            | (some _, s2) => (false, scanWarn i s2)

/-- The grub2 scan loop with its `for … else` clause: iterates `grubProbe`
over the partition list; if no iteration `break`s, raises
`CopyError("Could not find partition with 'boot/grub' folder on device …")`. -/
def grubScan (t : Target) (tm : String) :
    List Nat → St → Except Err Nat × St
  | [], s =>
      (.error (.copyError ("Could not find partition with 'boot/grub' " ++
        "folder on device " ++ t.device)), s)
  | i :: rest, s =>
      match grubProbe t tm i s with
      | (true, s1) => (.ok i, s1)
      | (false, s1) => grubScan t tm rest s1

/-- The `mounted_here` flags of the grub2 committed phase, each carrying the
partition it refers to when set: `rootM` for `mounted_here`, `bootM` for
`boot_mounted_here`, `efiM` for `efi_mounted_here`. -/
structure Flags where
  rootM : Option Nat
  bootM : Option Nat
  efiM : Option Nat
deriving DecidableEq, Repr

/-- The flagged partitions of `f`, in the cleanup's unmount order
(EFI, then boot, then root). -/
def flagsList (f : Flags) : List Nat :=
  f.efiM.toList ++ f.bootM.toList ++ f.rootM.toList

/-- The grub.cfg rewrite (`weresync_grub2.py` lines 89–101):
`old_perms = os.stat(grub_cfg)[0]`, then a `try` block reading the file,
applying `device.multireplace` with the copier's UUID dictionary and writing
the result back, with `finally: os.chmod(grub_cfg, old_perms)` so the
original permission bits are restored whether or not the read/write phase
raised. -/
def rewriteCfg (env : Env) (path : String) (s : St) : Option Err × St :=
  let old_perms := s.cfgPerms
  if env.cfgWriteOk then
    (none, { s with cfgContent := multireplace s.cfgContent env.uuidDict,
                    cfgPerms := old_perms,
                    trace := s.trace ++ [.rewroteCfg path] })
  else
    (some (.ioError ("error rewriting " ++ path)),
     { s with cfgContent := env.cfgFailContent,
              cfgPerms := old_perms,
              trace := s.trace ++ [.rewroteCfg path] })

/-- The grub-install argument vector (`weresync_grub2.py` lines 104–111):
always `grub-install --boot-directory=<mount_loc>boot --recheck`, then either
the EFI flags (EFI partition present) or `--target=i386-pc <device>`. -/
def buildGrubCommand (mount_loc : String) (efi : Option Nat)
    (device : String) : List String :=
  ["grub-install", "--boot-directory=" ++ mount_loc ++ "boot", "--recheck"]
    ++ (match efi with
        | some _ => ["--efi-directory=" ++ mount_loc ++ "boot/efi",
                     "--target=x86_64-efi", "--removable"]
        | none => ["--target=i386-pc", device])

/-- Running `grub-install` (`weresync_grub2.py` lines 114–122): the process's
stdout and stderr are combined (`stderr=subprocess.STDOUT`); a non-zero exit
code raises `DeviceError(copier.target.device, "Error installing grub.",
str(install_output, "utf-8"))`. -/
def runInstaller (env : Env) (cmd : List String) (s : St) : Option Err × St :=
  let s1 := addTrace s (.ranInstaller cmd)
  if env.installerRc ≠ 0 then
    (some (.deviceError env.target.device "Error installing grub."
      (some env.installerOutput)), s1)
  else (none, s1)

/-- Tail of the grub2 `try` body after the mount tree is set up: the grub.cfg
rewrite, then command construction and the installer run.  `os.makedirs` of
`boot/efi` (idempotent, `exist_ok=True`) is modelled as a no-op. -/
def grubBodyRest (env : Env) (efi : Option Nat) (f : Flags)
    (mount_loc : String) (s : St) : Option Err × Flags × St :=
  match rewriteCfg env (mount_loc ++ "boot/grub/grub.cfg") s with
  | (some e, s1) => (some e, f, s1)
  | (none, s1) =>
      match runInstaller env (buildGrubCommand mount_loc efi
          env.target.device) s1 with
      | (some e, s2) => (some e, f, s2)
      | (none, s2) => (none, f, s2)

/-- EFI step of the grub2 `try` body (lines 82–86): when an EFI partition is
given, create `<mount_loc>boot/efi` and mount the EFI partition there,
setting `efi_mounted_here` only after the mount succeeded. -/
def grubBodyEfi (env : Env) (efi : Option Nat) (rootM bootM : Option Nat)
    (mount_loc : String) (s : St) : Option Err × Flags × St :=
  match efi with
  | none => grubBodyRest env none ⟨rootM, bootM, none⟩ mount_loc s
  | some e =>
      match mountPart env.target e (mount_loc ++ "boot/efi") s with
      | (some err, s1) => (some err, ⟨rootM, bootM, none⟩, s1)
      | (none, s1) =>
          grubBodyRest env (some e) ⟨rootM, bootM, some e⟩ mount_loc s1

/-- Boot step of the grub2 `try` body (lines 77–80): when a boot partition is
given, mount it at `<mount_loc>boot`, setting `boot_mounted_here` only after
the mount succeeded. -/
def grubBodyBoot (env : Env) (boot efi : Option Nat) (rootM : Option Nat)
    (mount_loc : String) (s : St) : Option Err × Flags × St :=
  match boot with
  | none => grubBodyEfi env efi rootM none mount_loc s
  | some b =>
      match mountPart env.target b (mount_loc ++ "boot") s with
      | (some e, s1) => (some e, ⟨rootM, none, none⟩, s1)
      | (none, s1) => grubBodyEfi env efi rootM (some b) mount_loc s1

/-- The grub2 `try` body (lines 68–127) for a resolved root partition:
query `mount_point(root)`; if unmounted, mount it at `target_mnt` and set
`mounted_here`; normalise `mount_loc` to end in a slash; then the boot, EFI,
rewrite and installer steps.  Returns the raised exception (if any), the
`mounted_here` flags as reached, and the final state. -/
def grubBody (env : Env) (tm : String) (boot efi : Option Nat) (root : Nat)
    (s : St) : Option Err × Flags × St :=
  match lookupMount s.mounts root with
  | some mp => grubBodyBoot env boot efi none (ensureSlash mp) s
  | none =>
      match mountPart env.target root tm s with
      | (some e, s1) => (some e, ⟨none, none, none⟩, s1)
      | (none, s1) => grubBodyBoot env boot efi (some root) (ensureSlash tm) s1

/-- Root step of the grub2 `finally` block (lines 133–134).  An exception
from `unmount_partition` there is not caught: it propagates and aborts the
rest of the cleanup. -/
def grubCleanupRoot (t : Target) (f : Flags) (s : St) : Option Err × St :=
  match f.rootM with
  | some r => unmountPart t r s
  | none => (none, s)

/-- Boot step of the grub2 `finally` block (lines 131–132), then the root
step; an unmount exception aborts the remaining steps. -/
def grubCleanupBoot (t : Target) (f : Flags) (s : St) : Option Err × St :=
  match f.bootM with
  | some b =>
      match unmountPart t b s with
      | (some e, s1) => (some e, s1)
      | (none, s1) => grubCleanupRoot t f s1
  | none => grubCleanupRoot t f s

/-- The grub2 `finally` block (lines 128–134): unmount EFI if mounted here,
then boot, then root; a `DeviceError` raised by any of these unmounts is not
caught — it aborts the remaining unmounts and propagates. -/
def grubCleanup (t : Target) (f : Flags) (s : St) : Option Err × St :=
  match f.efiM with
  | some e =>
      match unmountPart t e s with
      | (some err, s1) => (some err, s1)
      | (none, s1) => grubCleanupBoot t f s1
  | none => grubCleanupBoot t f s

/-- The grub2 committed phase: run the `try` body, then the `finally`
cleanup on the flags the body reached.  Python's semantics: an exception
raised inside `finally` replaces the in-flight exception; otherwise the
body's exception (or normal result) propagates. -/
def grubMain (env : Env) (tm : String) (boot efi : Option Nat) (root : Nat)
    (s : St) : Except Err Unit × St :=
  let b := grubBody env tm boot efi root s
  let c := grubCleanup env.target b.2.1 b.2.2
  match c.1 with
  | some e => (.error e, c.2)
  | none =>
      match b.1 with
      | some e => (.error e, c.2)
      | none => (.ok (), c.2)

/-- `GrubPlugin.install_bootloader(source_mnt, target_mnt, copier,
excluded_partitions, boot_partition, root_partition, efi_partition)`
(`weresync_grub2.py` lines 37–135): when `root_partition is None`, the scan
loop resolves it (raising `CopyError` when no partition carries `boot/grub`);
then the committed phase runs.  `source_mnt` and `excluded_partitions` are
accepted and never read. -/
def grubInstall (env : Env) (source_mnt target_mnt : String)
    (excluded_partitions : List Nat) (boot root efi : Option Nat) (s : St) :
    Except Err Unit × St :=
  match root with
  | some r => grubMain env target_mnt boot efi r s
  | none =>
      match grubScan env.target target_mnt env.target.parts s with
      | (.ok r, s1) => grubMain env target_mnt boot efi r s1
      | (.error e, s1) => (.error e, s1)

/-- Modelled from the spec: the plugin base class `IBootPlugin`
(`weresync/plugins/__init__.py`, not under `src/`).  Per the spec's Boot
Plugin contract the plugin is constructed from a short machine name and a
human-readable display name and exposes `get_help` and `install_bootloader`;
it carries no `target` attribute.  Consequently the expression `self.target`
in `UUIDPlugin.install_bootloader`'s cleanup (`weresync_uuid_copy.py`
line 69) has no referent on the plugin object. -/
structure IBootPlugin where
  name : String
  prettyName : String
deriving DecidableEq, Repr

/-- Modelled from the spec: the `target` attribute lookup on the plugin
object (`self.target`).  The spec-modelled `IBootPlugin` has no such
attribute, so the lookup always fails, which Python reports as an
`AttributeError`. -/
def pluginTargetAttr (_plugin : IBootPlugin) : Option Target := none

/-- Modelled from the spec: `weresync.plugins.translate_uuid(copier, part,
path, mount_point)` (module `weresync/plugins/__init__.py` is not under
`src/`).  The spec's Identifier Translator applies the UUID translation to
every regular file under `path` on partition `part` (with the 200 MB size
guard); this model records the call as an event and treats it as total, the
spec specifying no failure mode for it. -/
def translateUuidEvent (i : Nat) (path : String) (s : St) : St :=
  addTrace s (.translated i path)

/-- The uuid_copy scan loop's inner cleanup warning:
`LOGGER.warning("Error unmounting partition " + i)`. -/
def uuidWarnUnmount (i : Nat) (s : St) : St :=
  addTrace s (.warned ("Error unmounting partition " ++ toString i))

/-- The uuid_copy scan loop's `finally` block (`weresync_uuid_copy.py`
lines 66–73): when `mounted_here` is set, evaluate
`self.target.unmount_partition(i)` inside a `try` that catches only
`DeviceError` (logging a warning).  The attribute lookup `self.target` on
the spec-modelled plugin fails with an `AttributeError`, which is not a
`DeviceError` and therefore propagates. -/
def uuidScanCleanup (plugin : IBootPlugin) (mounted_here : Bool) (i : Nat)
    (s : St) : Option Err × St :=
  if mounted_here then
    match pluginTargetAttr plugin with
    | none =>
        let e : Err := .attributeError
          ("UUIDPlugin object has no attribute target")
        if isDeviceError e then (none, uuidWarnUnmount i s) else (some e, s)
    | some dev =>
        match unmountPart dev i s with
        | (some err, s1) =>
            if isDeviceError err then (none, uuidWarnUnmount i s1)
            else (some err, s1)
        | (none, s1) => (none, s1)
  else (none, s)

/-- Outcome of one uuid_copy scan-loop iteration: the iteration `break`s
having selected partition `i`, continues with the next candidate, or lets an
exception propagate out of the loop. -/
inductive ProbeOut where
  | found (i : Nat)
  | next
  | raised (e : Err)
deriving DecidableEq, Repr

/-- One iteration of the uuid_copy plugin's scan loop (`weresync_uuid_copy.py`
lines 46–73): `mounted_here = False`; query `mount_point(i)`; if unmounted,
`mount_partition(i, target_mnt)` and set `mounted_here`; check
`os.path.exists(<mount>/boot)`; on the marker call
`translate_uuid(copier, i, "/boot", target_mnt)` and `break`.  A
`DeviceError` from the body is caught and logged; the `finally` block then
runs `uuidScanCleanup`, whose own exception (if any) replaces the pending
control flow (`break` or fall-through) and propagates. -/
def uuidProbe (plugin : IBootPlugin) (t : Target) (tm : String) (i : Nat)
    (s0 : St) : ProbeOut × St :=
  let s := addTrace s0 (.probed i)
  match lookupMount s.mounts i with
  | some _ =>
      if t.hasBoot i then (.found i, translateUuidEvent i "/boot" s)
      else (.next, s)
  | none =>
      match mountPart t i tm s with
      | (some _, s1) => (.next, scanWarn i s1)
      | (none, s1) =>
          if t.hasBoot i then
            let s2 := translateUuidEvent i "/boot" s1
            match uuidScanCleanup plugin true i s2 with
            | (some e, s3) => (.raised e, s3)
            | (none, s3) => (.found i, s3)
          else
            match uuidScanCleanup plugin true i s1 with
            | (some e, s2) => (.raised e, s2)
            | (none, s2) => (.next, s2)

/-- The uuid_copy scan loop with its `for … else` clause: iterate
`uuidProbe`; a raised exception propagates; if no iteration `break`s, raise
`CopyError("Could not find partition with 'boot' folder on device …")`. -/
def uuidScan (plugin : IBootPlugin) (t : Target) (tm : String) :
    List Nat → St → Except Err Nat × St
  | [], s =>
      (.error (.copyError ("Could not find partition with 'boot' " ++
        "folder on device " ++ t.device)), s)
  | i :: rest, s =>
      match uuidProbe plugin t tm i s with
      | (.found j, s1) => (.ok j, s1)
      | (.next, s1) => uuidScan plugin t tm rest s1
      | (.raised e, s1) => (.error e, s1)

/-- The trailing EFI step (`weresync_uuid_copy.py` lines 83–84): when an EFI
partition is given, `translate_uuid(copier, efi_partition, "/", target_mnt)`. -/
def uuidEfiStep (efi : Option Nat) (s : St) : Except Err Unit × St :=
  match efi with
  | some e => (.ok (), translateUuidEvent e "/" s)
  | none => (.ok (), s)

/-- `UUIDPlugin.install_bootloader(source_mnt, target_mnt, copier,
excluded_partitions, boot_partition, root_partition, efi_partition)`
(`weresync_uuid_copy.py` lines 40–84): when both root and boot hints are
absent, the scan loop runs (translating the first marker partition's `/boot`
in place); when a boot partition is hinted, its entire root `/` is
translated; otherwise the hinted root partition's `/boot` is translated;
finally, a hinted EFI partition's entire contents are translated.
`source_mnt` and `excluded_partitions` are accepted and never read. -/
def uuidInstall (plugin : IBootPlugin) (t : Target)
    (source_mnt target_mnt : String) (excluded_partitions : List Nat)
    (boot root efi : Option Nat) (s : St) : Except Err Unit × St :=
  match root, boot with
  | none, none =>
      match uuidScan plugin t target_mnt t.parts s with
      | (.ok _, s1) => uuidEfiStep efi s1
      | (.error e, s1) => (.error e, s1)
  | _, some b => uuidEfiStep efi (translateUuidEvent b "/" s)
  | some r, none => uuidEfiStep efi (translateUuidEvent r "/boot" s)

deriving instance DecidableEq for Except

/-- `True` on a result that is a raised `DeviceError`. -/
def resultDeviceError : Except Err Unit → Bool
  | .error e => isDeviceError e
  | _ => false

/-- Whether one scan-loop iteration over partition `j`, started in mount
table `m`, selects `j`: the marker must be present, and the partition must be
reachable (already mounted, or mountable). -/
def probeFinds (t : Target) (m : List (Nat × String)) (j : Nat) : Bool :=
  match lookupMount m j with
  | some _ => t.hasBootGrub j
  | none => t.mountOk j && t.hasBootGrub j

/-- The partitions probed so far, in order, as recorded in a trace. -/
def probedOf (tr : List Event) : List Nat :=
  tr.filterMap (fun e => match e with | .probed j => some j | _ => none)

/-- Trace events appended by the trailing EFI translation step of the
uuid_copy plugin. -/
def efiEvents : Option Nat → List Event
  | some e => [.translated e "/"]
  | none => []

lemma lookupMount_cons (p : Nat × String) (m : List (Nat × String)) (i : Nat) :
    lookupMount (p :: m) i = if p.1 == i then some p.2 else lookupMount m i := by
  by_cases h : p.1 == i
  · simp [lookupMount, List.find?_cons_of_pos _ h, h]
  · simp only [Bool.not_eq_true] at h
    simp [lookupMount, List.find?_cons_of_neg, h]

lemma lookupMount_delMount_self (m : List (Nat × String)) (i : Nat) :
    lookupMount (delMount m i) i = none := by
  induction m with
  | nil => rfl
  | cons p m ih =>
      by_cases h : p.1 = i
      · simpa [delMount, List.filter_cons, h] using ih
      · simpa [delMount, List.filter_cons, h, lookupMount_cons] using ih

lemma lookupMount_delMount_ne (m : List (Nat × String)) (i j : Nat)
    (h : j ≠ i) : lookupMount (delMount m i) j = lookupMount m j := by
  induction m with
  | nil => rfl
  | cons p m ih =>
      rw [lookupMount_cons]
      by_cases hp : p.1 = i
      · have hdel : delMount (p :: m) i = delMount m i := by
          simp [delMount, List.filter_cons, hp]
        have hij : ¬ p.1 = j := by rw [hp]; exact fun hij => h hij.symm
        rw [hdel, ih]
        simp [hij]
      · have hdel : delMount (p :: m) i = p :: delMount m i := by
          simp [delMount, List.filter_cons, hp]
        rw [hdel, lookupMount_cons, ih]

lemma lookupMount_delMount_none (m : List (Nat × String)) (i j : Nat)
    (h : lookupMount m j = none) : lookupMount (delMount m i) j = none := by
  by_cases hji : j = i
  · subst hji; exact lookupMount_delMount_self m j
  · rw [lookupMount_delMount_ne m i j hji]; exact h

lemma lookupMount_setMount_self (m : List (Nat × String)) (i : Nat)
    (path : String) : lookupMount (setMount m i path) i = some path := by
  simp [setMount, lookupMount_cons]

lemma lookupMount_setMount_ne (m : List (Nat × String)) (i j : Nat)
    (path : String) (h : j ≠ i) :
    lookupMount (setMount m i path) j = lookupMount m j := by
  have hij : ¬ i = j := fun hij => h hij.symm
  simp only [setMount, lookupMount_cons, hij, beq_iff_eq, if_false]
  exact lookupMount_delMount_ne m i j h

lemma probedOf_append (a b : List Event) :
    probedOf (a ++ b) = probedOf a ++ probedOf b := by
  simp [probedOf, List.filterMap_append]

lemma addTrace_mounts (s : St) (e : Event) : (addTrace s e).mounts = s.mounts :=
  rfl

lemma grubProbe_fst (t : Target) (tm : String) (i : Nat) (s : St) :
    (grubProbe t tm i s).1 = probeFinds t s.mounts i := by
  cases hm : lookupMount s.mounts i <;>
    cases hg : t.hasBootGrub i <;>
      cases hmo : t.mountOk i <;>
        cases humo : t.unmountOk i <;>
          simp [grubProbe, probeFinds, mountPart, unmountPart, addTrace,
            scanWarn, hm, hg, hmo, humo]

lemma grubProbe_found_mounted (t : Target) (tm : String) (i : Nat) (s : St)
    (h : probeFinds t s.mounts i = true) :
    (lookupMount (grubProbe t tm i s).2.mounts i).isSome = true := by
  cases hm : lookupMount s.mounts i <;>
    cases hg : t.hasBootGrub i <;>
      cases hmo : t.mountOk i <;>
        simp_all [grubProbe, probeFinds, mountPart, unmountPart, addTrace,
          scanWarn, lookupMount_setMount_self]

lemma grubProbe_mounts_ne (t : Target) (tm : String) (i : Nat) (s : St)
    (j : Nat) (hj : j ≠ i) :
    lookupMount (grubProbe t tm i s).2.mounts j = lookupMount s.mounts j := by
  cases hm : lookupMount s.mounts i <;>
    cases hg : t.hasBootGrub i <;>
      cases hmo : t.mountOk i <;>
        cases humo : t.unmountOk i <;>
          simp [grubProbe, mountPart, unmountPart, addTrace, scanWarn,
            hm, hg, hmo, humo, lookupMount_delMount_ne, lookupMount_setMount_ne,
            hj]

lemma grubProbe_invar (t : Target) (tm : String) (i : Nat) (s : St)
    (h : probeFinds t s.mounts i = false) (j : Nat) :
    probeFinds t (grubProbe t tm i s).2.mounts j = probeFinds t s.mounts j := by
  by_cases hj : j = i
  · subst hj
    cases hm : lookupMount s.mounts j <;>
      cases hg : t.hasBootGrub j <;>
        cases hmo : t.mountOk j <;>
          cases humo : t.unmountOk j <;>
            simp_all [grubProbe, probeFinds, mountPart, unmountPart, addTrace,
              scanWarn, lookupMount_delMount_self, lookupMount_setMount_self]
  · unfold probeFinds
    rw [grubProbe_mounts_ne t tm i s j hj]

lemma grubProbe_probedOf (t : Target) (tm : String) (i : Nat) (s : St) :
    probedOf (grubProbe t tm i s).2.trace = probedOf s.trace ++ [i] := by
  cases hm : lookupMount s.mounts i <;>
    cases hg : t.hasBootGrub i <;>
      cases hmo : t.mountOk i <;>
        cases humo : t.unmountOk i <;>
          simp [grubProbe, mountPart, unmountPart, addTrace, scanWarn,
            hm, hg, hmo, humo, probedOf_append, probedOf]

lemma grubProbe_trace_mono (t : Target) (tm : String) (i : Nat) (s : St)
    (e : Event) (he : e ∈ s.trace) : e ∈ (grubProbe t tm i s).2.trace := by
  cases hm : lookupMount s.mounts i <;>
    cases hg : t.hasBootGrub i <;>
      cases hmo : t.mountOk i <;>
        cases humo : t.unmountOk i <;>
          simp [grubProbe, mountPart, unmountPart, addTrace, scanWarn,
            hm, hg, hmo, humo, he]

lemma grubProbe_warn (t : Target) (tm : String) (i : Nat) (s : St)
    (hm : lookupMount s.mounts i = none) (hmo : t.mountOk i = false) :
    Event.warned ("Could not mount partition " ++ toString i ++
      ". Assumed to not be the partition grub is on.")
      ∈ (grubProbe t tm i s).2.trace := by
  simp [grubProbe, mountPart, addTrace, scanWarn, hm, hmo]

lemma grubScan_trace_mono (t : Target) (tm : String) :
    ∀ (l : List Nat) (s : St) (e : Event), e ∈ s.trace →
      e ∈ (grubScan t tm l s).2.trace := by
  intro l
  induction l with
  | nil => intro s e he; exact he
  | cons i rest ih =>
      intro s e he
      rcases hp : grubProbe t tm i s with ⟨found, s1⟩
      have h1 : e ∈ s1.trace := by
        have hmono := grubProbe_trace_mono t tm i s e he
        rw [hp] at hmono; exact hmono
      cases found
      · simpa [grubScan, hp] using ih s1 e h1
      · simpa [grubScan, hp] using h1

lemma grubScan_found (t : Target) (tm : String) (i : Nat) (l2 : List Nat) :
    ∀ (l1 : List Nat) (s : St),
      (∀ k ∈ l1, probeFinds t s.mounts k = false) →
      probeFinds t s.mounts i = true →
      (grubScan t tm (l1 ++ i :: l2) s).1 = .ok i ∧
      (lookupMount (grubScan t tm (l1 ++ i :: l2) s).2.mounts i).isSome = true ∧
      probedOf (grubScan t tm (l1 ++ i :: l2) s).2.trace
        = probedOf s.trace ++ (l1 ++ [i]) := by
  intro l1
  induction l1 with
  | nil =>
      intro s _ h2
      rcases hp : grubProbe t tm i s with ⟨found, s1⟩
      have hf : found = true := by
        have hfst := grubProbe_fst t tm i s
        rw [hp] at hfst
        simpa using hfst.trans h2
      subst hf
      refine ⟨by simp [grubScan, hp], ?_, ?_⟩
      · have hmt := grubProbe_found_mounted t tm i s h2
        rw [hp] at hmt
        simpa [grubScan, hp] using hmt
      · have hpr := grubProbe_probedOf t tm i s
        rw [hp] at hpr
        simpa [grubScan, hp] using hpr
  | cons j l1 ih =>
      intro s h1 h2
      have hj : probeFinds t s.mounts j = false := h1 j (by simp)
      rcases hp : grubProbe t tm j s with ⟨found, s1⟩
      have hf : found = false := by
        have hfst := grubProbe_fst t tm j s
        rw [hp] at hfst
        simpa using hfst.trans hj
      subst hf
      have hinv : ∀ k, probeFinds t s1.mounts k = probeFinds t s.mounts k := by
        intro k
        have hi := grubProbe_invar t tm j s hj k
        rw [hp] at hi; exact hi
      have hih := ih s1 (fun k hk => by rw [hinv k]; exact h1 k (by simp [hk]))
        (by rw [hinv i]; exact h2)
      have hpr : probedOf s1.trace = probedOf s.trace ++ [j] := by
        have hq := grubProbe_probedOf t tm j s
        rw [hp] at hq; exact hq
      refine ⟨?_, ?_, ?_⟩
      · simpa [grubScan, hp] using hih.1
      · simpa [grubScan, hp] using hih.2.1
      · have := hih.2.2
        rw [hpr] at this
        simpa [grubScan, hp, List.append_assoc] using this

lemma grubScan_exhaust (t : Target) (tm : String) :
    ∀ (l : List Nat) (s : St),
      (∀ k ∈ l, probeFinds t s.mounts k = false) →
      (grubScan t tm l s).1 =
        .error (.copyError ("Could not find partition with 'boot/grub' " ++
          "folder on device " ++ t.device)) := by
  intro l
  induction l with
  | nil => intro s _; rfl
  | cons j rest ih =>
      intro s h
      have hj : probeFinds t s.mounts j = false := h j (by simp)
      rcases hp : grubProbe t tm j s with ⟨found, s1⟩
      have hf : found = false := by
        have hfst := grubProbe_fst t tm j s
        rw [hp] at hfst
        simpa using hfst.trans hj
      subst hf
      have hinv : ∀ k, probeFinds t s1.mounts k = probeFinds t s.mounts k := by
        intro k
        have hi := grubProbe_invar t tm j s hj k
        rw [hp] at hi; exact hi
      simpa [grubScan, hp] using
        ih s1 (fun k hk => by rw [hinv k]; exact h k (by simp [hk]))

lemma grubScan_warn (t : Target) (tm : String) (j : Nat) (l2 : List Nat) :
    ∀ (l1 : List Nat) (s : St),
      (∀ k ∈ l1, probeFinds t s.mounts k = false) →
      j ∉ l1 →
      lookupMount s.mounts j = none → t.mountOk j = false →
      Event.warned ("Could not mount partition " ++ toString j ++
        ". Assumed to not be the partition grub is on.")
        ∈ (grubScan t tm (l1 ++ j :: l2) s).2.trace := by
  intro l1
  induction l1 with
  | nil =>
      intro s _ _ hm hmo
      have hjf : probeFinds t s.mounts j = false := by
        simp [probeFinds, hm, hmo]
      rcases hp : grubProbe t tm j s with ⟨found, s1⟩
      have hf : found = false := by
        have hfst := grubProbe_fst t tm j s
        rw [hp] at hfst
        simpa using hfst.trans hjf
      subst hf
      have hw := grubProbe_warn t tm j s hm hmo
      rw [hp] at hw
      simpa [grubScan, hp] using grubScan_trace_mono t tm l2 s1 _ hw
  | cons k l1 ih =>
      intro s h1 hnot hm hmo
      have hk : probeFinds t s.mounts k = false := h1 k (by simp)
      rcases hp : grubProbe t tm k s with ⟨found, s1⟩
      have hf : found = false := by
        have hfst := grubProbe_fst t tm k s
        rw [hp] at hfst
        simpa using hfst.trans hk
      subst hf
      have hjk : j ≠ k := fun hq => hnot (by simp [hq])
      have hinv : ∀ q, probeFinds t s1.mounts q = probeFinds t s.mounts q := by
        intro q
        have hi := grubProbe_invar t tm k s hk q
        rw [hp] at hi; exact hi
      have hmn : lookupMount s1.mounts j = none := by
        have hne := grubProbe_mounts_ne t tm k s j hjk
        rw [hp] at hne; rw [hne]; exact hm
      simpa [grubScan, hp] using
        ih s1 (fun q hq => by rw [hinv q]; exact h1 q (by simp [hq]))
          (fun hq => hnot (by simp [hq])) hmn hmo

lemma grubCleanupRoot_spec (t : Target) (f : Flags) (s : St)
    (h : ∀ i, t.unmountOk i = true) :
    (grubCleanupRoot t f s).1 = none ∧
    (∀ j, lookupMount s.mounts j = none →
      lookupMount (grubCleanupRoot t f s).2.mounts j = none) ∧
    (∀ e ∈ s.trace, e ∈ (grubCleanupRoot t f s).2.trace) ∧
    (∀ p, f.rootM = some p →
      lookupMount (grubCleanupRoot t f s).2.mounts p = none ∧
      Event.unmounted p ∈ (grubCleanupRoot t f s).2.trace) := by
  cases hr : f.rootM with
  | none =>
      refine ⟨by simp [grubCleanupRoot, hr], ?_, ?_, ?_⟩
      · intro j hj; simpa [grubCleanupRoot, hr] using hj
      · intro e he; simpa [grubCleanupRoot, hr] using he
      · intro p hp; exact Option.noConfusion hp
  | some r =>
      have hred : grubCleanupRoot t f s =
          (none, { s with mounts := delMount s.mounts r,
                          trace := s.trace ++ [.unmounted r] }) := by
        simp [grubCleanupRoot, hr, unmountPart, h r]
      rw [hred]
      refine ⟨rfl, ?_, ?_, ?_⟩
      · intro j hj; exact lookupMount_delMount_none _ _ _ hj
      · intro e he; simp [he]
      · intro p hp
        have hrp : r = p := by injection hp
        subst hrp
        exact ⟨lookupMount_delMount_self _ _, by simp⟩

lemma grubCleanupBoot_spec (t : Target) (f : Flags) (s : St)
    (h : ∀ i, t.unmountOk i = true) :
    (grubCleanupBoot t f s).1 = none ∧
    (∀ j, lookupMount s.mounts j = none →
      lookupMount (grubCleanupBoot t f s).2.mounts j = none) ∧
    (∀ e ∈ s.trace, e ∈ (grubCleanupBoot t f s).2.trace) ∧
    (∀ p, f.bootM = some p ∨ f.rootM = some p →
      lookupMount (grubCleanupBoot t f s).2.mounts p = none ∧
      Event.unmounted p ∈ (grubCleanupBoot t f s).2.trace) := by
  cases hb : f.bootM with
  | none =>
      have hred : grubCleanupBoot t f s = grubCleanupRoot t f s := by
        simp [grubCleanupBoot, hb]
      rw [hred]
      have hroot := grubCleanupRoot_spec t f s h
      refine ⟨hroot.1, hroot.2.1, hroot.2.2.1, ?_⟩
      intro p hp
      rcases hp with hp | hp
      · exact Option.noConfusion hp
      · exact hroot.2.2.2 p hp
  | some b =>
      have hred : grubCleanupBoot t f s =
          grubCleanupRoot t f { s with mounts := delMount s.mounts b,
                                       trace := s.trace ++ [.unmounted b] } := by
        simp [grubCleanupBoot, hb, unmountPart, h b]
      rw [hred]
      have hroot := grubCleanupRoot_spec t f
        { s with mounts := delMount s.mounts b,
                 trace := s.trace ++ [.unmounted b] } h
      refine ⟨hroot.1, ?_, ?_, ?_⟩
      · intro j hj
        exact hroot.2.1 j (lookupMount_delMount_none _ _ _ hj)
      · intro e he
        exact hroot.2.2.1 e (by simp [he])
      · intro p hp
        rcases hp with hp | hp
        · have hbp : b = p := by injection hp
          subst hbp
          exact ⟨hroot.2.1 b (lookupMount_delMount_self _ _),
                 hroot.2.2.1 _ (by simp)⟩
        · exact hroot.2.2.2 p hp

lemma grubCleanup_spec (t : Target) (f : Flags) (s : St)
    (h : ∀ i, t.unmountOk i = true) :
    (grubCleanup t f s).1 = none ∧
    (∀ p, f.efiM = some p ∨ f.bootM = some p ∨ f.rootM = some p →
      lookupMount (grubCleanup t f s).2.mounts p = none ∧
      Event.unmounted p ∈ (grubCleanup t f s).2.trace) := by
  cases he : f.efiM with
  | none =>
      have hred : grubCleanup t f s = grubCleanupBoot t f s := by
        simp [grubCleanup, he]
      rw [hred]
      have hboot := grubCleanupBoot_spec t f s h
      refine ⟨hboot.1, ?_⟩
      intro p hp
      rcases hp with hp | hp
      · exact Option.noConfusion hp
      · exact hboot.2.2.2 p hp
  | some e =>
      have hred : grubCleanup t f s =
          grubCleanupBoot t f { s with mounts := delMount s.mounts e,
                                       trace := s.trace ++ [.unmounted e] } := by
        simp [grubCleanup, he, unmountPart, h e]
      rw [hred]
      have hboot := grubCleanupBoot_spec t f
        { s with mounts := delMount s.mounts e,
                 trace := s.trace ++ [.unmounted e] } h
      refine ⟨hboot.1, ?_⟩
      intro p hp
      rcases hp with hp | hp
      · have hep : e = p := by injection hp
        subst hep
        exact ⟨hboot.2.1 e (lookupMount_delMount_self _ _),
               hboot.2.2.1 _ (by simp)⟩
      · exact hboot.2.2.2 p hp

lemma mem_flagsList (f : Flags) (p : Nat) :
    p ∈ flagsList f ↔
      (f.efiM = some p ∨ f.bootM = some p ∨ f.rootM = some p) := by
  simp [flagsList, Option.mem_toList, Option.mem_def]

lemma grubMain_state (env : Env) (tm : String) (boot efi : Option Nat)
    (root : Nat) (s : St) :
    (grubMain env tm boot efi root s).2 =
      (grubCleanup env.target (grubBody env tm boot efi root s).2.1
        (grubBody env tm boot efi root s).2.2).2 := by
  unfold grubMain
  cases hc : (grubCleanup env.target (grubBody env tm boot efi root s).2.1
      (grubBody env tm boot efi root s).2.2).1 with
  | none =>
      cases hb : (grubBody env tm boot efi root s).1 <;> simp [hc, hb]
  | some e => simp [hc]

lemma grubMain_cleanup_err (env : Env) (tm : String) (boot efi : Option Nat)
    (root : Nat) (s : St) (e : Err)
    (h : (grubCleanup env.target (grubBody env tm boot efi root s).2.1
      (grubBody env tm boot efi root s).2.2).1 = some e) :
    (grubMain env tm boot efi root s).1 = .error e := by
  unfold grubMain
  simp [h]

lemma uuidProbe_keeps_mount (plugin : IBootPlugin) (t : Target) (tm : String)
    (i j : Nat) (mp : String) (s : St)
    (h : lookupMount s.mounts j = some mp) :
    lookupMount (uuidProbe plugin t tm i s).2.mounts j = some mp := by
  cases hm : lookupMount s.mounts i with
  | some q =>
      cases hb : t.hasBoot i <;>
        simp [uuidProbe, addTrace, translateUuidEvent, hm, hb, h]
  | none =>
      have hne : j ≠ i := by
        intro hq
        rw [hq] at h
        rw [hm] at h
        exact Option.noConfusion h
      cases hmo : t.mountOk i <;> cases hb : t.hasBoot i <;>
        simp [uuidProbe, mountPart, addTrace, scanWarn, translateUuidEvent,
          uuidScanCleanup, pluginTargetAttr, isDeviceError, uuidWarnUnmount,
          hm, hmo, hb, lookupMount_setMount_ne, hne, h]

lemma uuidScan_keeps_mount (plugin : IBootPlugin) (t : Target) (tm : String) :
    ∀ (l : List Nat) (s : St) (j : Nat) (mp : String),
      lookupMount s.mounts j = some mp →
      lookupMount (uuidScan plugin t tm l s).2.mounts j = some mp := by
  intro l
  induction l with
  | nil => intro s j mp h; exact h
  | cons i rest ih =>
      intro s j mp h
      rcases hp : uuidProbe plugin t tm i s with ⟨out, s1⟩
      have h1 : lookupMount s1.mounts j = some mp := by
        have hk := uuidProbe_keeps_mount plugin t tm i j mp s h
        rw [hp] at hk; exact hk
      cases out with
      | found q => simpa [uuidScan, hp] using h1
      | next => simpa [uuidScan, hp] using ih s1 j mp h1
      | raised e => simpa [uuidScan, hp] using h1

/-- A target with a single partition `1` that carries both markers; every
mount and unmount succeeds. -/
def tA : Target :=
  { parts := [1], device := "/dev/sdb",
    mountOk := fun _ => true, unmountOk := fun _ => true,
    hasBootGrub := fun _ => true, hasBoot := fun _ => true }

/-- An environment over `tA` where the grub.cfg rewrite and the installer
both succeed. -/
def envA : Env :=
  { target := tA, uuidDict := [("old-uuid", "new-uuid")],
    cfgWriteOk := true, cfgFailContent := "",
    installerRc := 0, installerOutput := "" }

/-- Like `tA`, but every unmount fails with a `DeviceError`. -/
def tC : Target := { tA with unmountOk := fun _ => false }

/-- Environment over `tC`. -/
def envC : Env := { envA with target := tC }

/-- Like `tA`, but no partition carries a marker. -/
def tD : Target :=
  { tA with hasBootGrub := fun _ => false, hasBoot := fun _ => false }

/-- Environment over `tD`. -/
def envD : Env := { envA with target := tD }

/-- Three partitions: partition 1 cannot be mounted (its probe raises a
`DeviceError`), partition 2 carries the marker, partition 3 is after the
match. -/
def tE : Target :=
  { parts := [1, 2, 3], device := "/dev/sdc",
    mountOk := fun i => i != 1, unmountOk := fun _ => true,
    hasBootGrub := fun i => i == 2, hasBoot := fun i => i == 2 }

/-- Environment over `envA`'s target where the grub.cfg write phase fails. -/
def envF : Env := { envA with cfgWriteOk := false, cfgFailContent := "part" }

/-- Environment where the installer exits with code 1 and captured output. -/
def envG : Env :=
  { envA with installerRc := 1, installerOutput := "grub-install: error" }

/-- Two partitions without markers, all mounts succeeding. -/
def tH : Target := { tD with parts := [1, 2] }

/-- Initial state: nothing mounted, grub.cfg with permission bits `0o644`. -/
def stEmpty : St :=
  { mounts := [], cfgPerms := 420, cfgContent := "UUID=old-uuid", trace := [] }

/-- Initial state with partition 1 already mounted at `/pre`. -/
def stPre : St := { stEmpty with mounts := [(1, "/pre")] }

/-- The uuid_copy plugin instance (`super().__init__("uuid_copy",
"UUID Copy")`). -/
def plugin0 : IBootPlugin := { name := "uuid_copy", prettyName := "UUID Copy" }

/-- C1 (counterexample): the claim that every partition mounted by the
invocation is unmounted by the time it returns fails on the grub2 path where
the scan loop locates the root partition by mounting it.  On a device whose
single partition carries `boot/grub` and starts unmounted, the invocation
mounts it during the scan, returns successfully, and leaves it mounted:
the committed phase sees a non-null `mount_point` and therefore never sets
`mounted_here`. -/
theorem grub_scan_mount_leak :
    (grubInstall envA "/src" "/mnt" [] none none none stEmpty).1 = .ok () ∧
    Event.mounted 1 "/mnt"
      ∈ (grubInstall envA "/src" "/mnt" [] none none none stEmpty).2.trace ∧
    Event.unmounted 1
      ∉ (grubInstall envA "/src" "/mnt" [] none none none stEmpty).2.trace ∧
    lookupMount (grubInstall envA "/src" "/mnt" [] none none none
      stEmpty).2.mounts 1 = some "/mnt" := by
  decide

/-- C1 (amended): in the grub2 variant, every partition recorded in a
`mounted_here` flag of the committed phase (root mounted there, boot, EFI) is
unmounted by the time the invocation returns or raises, provided the cleanup
unmounts themselves succeed; a root partition mounted by the scan loop is not
covered by any flag and is left mounted. -/
theorem grub_flagged_mounts_unmounted (env : Env) (tm : String)
    (boot efi : Option Nat) (root : Nat) (s : St)
    (h : ∀ i, env.target.unmountOk i = true) (p : Nat)
    (hp : p ∈ flagsList (grubBody env tm boot efi root s).2.1) :
    lookupMount (grubMain env tm boot efi root s).2.mounts p = none ∧
    Event.unmounted p ∈ (grubMain env tm boot efi root s).2.trace := by
  have hc := grubCleanup_spec env.target (grubBody env tm boot efi root s).2.1
    (grubBody env tm boot efi root s).2.2 h
  have hd := hc.2 p ((mem_flagsList _ p).mp hp)
  rw [grubMain_state]
  exact hd

/-- C1 (witness): with root partition 1 hinted and initially unmounted, boot
partition 2 and EFI partition 3, all three flags are set and partition 3 is
unmounted by the cleanup. -/
theorem grub_flagged_mounts_unmounted_w :
    lookupMount (grubMain envA "/mnt" (some 2) (some 3) 1 stEmpty).2.mounts 3
      = none ∧
    Event.unmounted 3
      ∈ (grubMain envA "/mnt" (some 2) (some 3) 1 stEmpty).2.trace :=
  grub_flagged_mounts_unmounted envA "/mnt" (some 2) (some 3) 1 stEmpty
    (fun _ => rfl) 3 (by decide)

/-- C2 (counterexample): a `DeviceError` raised by an unmount performed
during the grub2 cleanup propagates to the caller.  With root partition 1
hinted and every unmount failing, the `try` body completes without error,
yet the invocation raises a `DeviceError` — which can only have come from the
cleanup's unmount. -/
theorem grub_cleanup_error_propagates_cx :
    (grubBody envC "/mnt" none none 1 stEmpty).1 = none ∧
    resultDeviceError
      (grubInstall envC "/src" "/mnt" [] none (some 1) none stEmpty).1
        = true := by
  decide

/-- C2 (amended): a `DeviceError` raised inside the grub2 `finally` block
becomes the invocation's result (it is propagated, replacing any in-flight
outcome); only the uuid_copy variant's scan cleanup catches `DeviceError`
and logs it — any exception that escapes that cleanup is not a
`DeviceError`. -/
theorem cleanup_error_policy :
    (∀ (env : Env) (tm : String) (boot efi : Option Nat) (root : Nat)
        (s : St) (e : Err),
      (grubCleanup env.target (grubBody env tm boot efi root s).2.1
        (grubBody env tm boot efi root s).2.2).1 = some e →
      (grubMain env tm boot efi root s).1 = .error e) ∧
    (∀ (plugin : IBootPlugin) (mh : Bool) (i : Nat) (s : St) (e : Err),
      (uuidScanCleanup plugin mh i s).1 = some e →
      isDeviceError e = false) := by
  constructor
  · intro env tm boot efi root s e h
    exact grubMain_cleanup_err env tm boot efi root s e h
  · intro plugin mh i s e h
    cases mh with
    | false => simp [uuidScanCleanup] at h
    | true =>
        simp [uuidScanCleanup, pluginTargetAttr, isDeviceError] at h
        subst h
        rfl

/-- C2 (witness): the grub2 invocation of `grub_cleanup_error_propagates_cx`
raises exactly the cleanup's `DeviceError`, and the error escaping the
uuid_copy cleanup is not a `DeviceError`. -/
theorem cleanup_error_policy_w :
    (grubMain envC "/mnt" none none 1 stEmpty).1 =
      .error (.deviceError "/dev/sdb" ("could not unmount partition 1")
        none) ∧
    isDeviceError (.attributeError "UUIDPlugin object has no attribute target")
      = false :=
  ⟨cleanup_error_policy.1 envC "/mnt" none none 1 stEmpty _ (by decide),
   cleanup_error_policy.2 plugin0 true 1 stEmpty _ (by decide)⟩

/-- C3 (counterexample): the grub2 scan does not leave a pre-mounted
candidate's mount state unchanged when the marker is absent: on a device
whose partition 1 is already mounted at `/pre` and carries no `boot/grub`,
the scan unmounts it. -/
theorem grub_scan_unmounts_premounted_cx :
    lookupMount stPre.mounts 1 = some "/pre" ∧
    Event.unmounted 1
      ∈ (grubInstall envD "/src" "/mnt" [] none none none stPre).2.trace ∧
    lookupMount (grubInstall envD "/src" "/mnt" [] none none none
      stPre).2.mounts 1 = none := by
  decide

/-- C3 (amended): in the pure-translation (uuid_copy) variant the scan loop
preserves the mount state of every partition that was already mounted before
it ran — in particular a pre-mounted candidate without the marker is left
untouched; the grub2 variant's scan instead unmounts such a candidate. -/
theorem uuid_scan_frame (plugin : IBootPlugin) (t : Target) (tm : String)
    (l : List Nat) (s : St) (j : Nat) (mp : String)
    (h : lookupMount s.mounts j = some mp) :
    lookupMount (uuidScan plugin t tm l s).2.mounts j = some mp :=
  uuidScan_keeps_mount plugin t tm l s j mp h

/-- C3 (witness): scanning a device without markers leaves the pre-mounted
partition 1 at `/pre`. -/
theorem uuid_scan_frame_w :
    lookupMount (uuidScan plugin0 tD "/mnt" [1] stPre).2.mounts 1
      = some "/pre" :=
  uuid_scan_frame plugin0 tD "/mnt" [1] stPre 1 "/pre" (by decide)

/-- C4: the grub-install command always contains the boot-directory flag
pointing at `<mount_loc>boot` and the `--recheck` flag; with an EFI partition
it is exactly the EFI form (EFI directory, `--target=x86_64-efi`,
`--removable`, and — provided the device path is not literally one of those
flag strings — no raw device argument); without one it is exactly the BIOS
form ending in `--target=i386-pc` followed by the raw device path, and every
element is one of the BIOS-form strings (so none of the EFI flags occur). -/
theorem grub_command_spec (loc dev : String) (p : Nat) :
    buildGrubCommand loc (some p) dev =
      ["grub-install", "--boot-directory=" ++ loc ++ "boot", "--recheck",
       "--efi-directory=" ++ loc ++ "boot/efi", "--target=x86_64-efi",
       "--removable"] ∧
    buildGrubCommand loc none dev =
      ["grub-install", "--boot-directory=" ++ loc ++ "boot", "--recheck",
       "--target=i386-pc", dev] ∧
    ("--boot-directory=" ++ loc ++ "boot") ∈ buildGrubCommand loc (some p) dev ∧
    ("--boot-directory=" ++ loc ++ "boot") ∈ buildGrubCommand loc none dev ∧
    "--recheck" ∈ buildGrubCommand loc (some p) dev ∧
    "--recheck" ∈ buildGrubCommand loc none dev ∧
    (dev ∉ ["grub-install", "--boot-directory=" ++ loc ++ "boot", "--recheck",
        "--efi-directory=" ++ loc ++ "boot/efi", "--target=x86_64-efi",
        "--removable"] →
      dev ∉ buildGrubCommand loc (some p) dev) ∧
    (∀ x ∈ buildGrubCommand loc none dev,
      x = "grub-install" ∨ x = "--boot-directory=" ++ loc ++ "boot" ∨
      x = "--recheck" ∨ x = "--target=i386-pc" ∨ x = dev) := by
  refine ⟨rfl, rfl, ?_, ?_, ?_, ?_, ?_, ?_⟩
  · simp [buildGrubCommand]
  · simp [buildGrubCommand]
  · simp [buildGrubCommand]
  · simp [buildGrubCommand]
  · intro h
    simpa [buildGrubCommand] using h
  · intro x hx
    simpa [buildGrubCommand] using hx

/-- C4 (witness): concrete command lines for `/mnt/` and `/dev/sdb`. -/
theorem grub_command_spec_w :
    "/dev/sdb" ∉ buildGrubCommand "/mnt/" (some 1) "/dev/sdb" ∧
    buildGrubCommand "/mnt/" none "/dev/sdb" =
      ["grub-install", "--boot-directory=" ++ "/mnt/" ++ "boot", "--recheck",
       "--target=i386-pc", "/dev/sdb"] :=
  ⟨(grub_command_spec "/mnt/" "/dev/sdb" 1).2.2.2.2.2.2.1 (by decide),
   (grub_command_spec "/mnt/" "/dev/sdb" 1).2.1⟩

/-- C5: when the installer exits non-zero, the step raises a `DeviceError`
naming `copier.target.device` whose long diagnostic is exactly the captured
combined stdout/stderr text; when it exits zero, no error is raised at this
step. -/
theorem installer_error_spec (env : Env) (cmd : List String) (s : St) :
    (env.installerRc ≠ 0 →
      (runInstaller env cmd s).1 =
        some (.deviceError env.target.device "Error installing grub."
          (some env.installerOutput))) ∧
    (env.installerRc = 0 → (runInstaller env cmd s).1 = none) := by
  constructor
  · intro h
    simp [runInstaller, h]
  · intro h
    simp [runInstaller, h]

/-- C5 (witness): exit code 1 with output `grub-install: error` raises the
`DeviceError` carrying that output verbatim; exit code 0 raises nothing. -/
theorem installer_error_spec_w :
    (runInstaller envG ["grub-install"] stEmpty).1 =
      some (.deviceError envG.target.device "Error installing grub."
        (some envG.installerOutput)) ∧
    (runInstaller envA ["grub-install"] stEmpty).1 = none :=
  ⟨(installer_error_spec envG ["grub-install"] stEmpty).1 (by decide),
   (installer_error_spec envA ["grub-install"] stEmpty).2 rfl⟩

/-- C6: the grub.cfg rewrite leaves the file's permission bits equal to those
read before the rewrite on every exit path — in particular also when the
read/write phase raises midway (`finally: os.chmod(grub_cfg, old_perms)`). -/
theorem rewrite_preserves_perms (env : Env) (path : String) (s : St) :
    (rewriteCfg env path s).2.cfgPerms = s.cfgPerms ∧
    (env.cfgWriteOk = false →
      (rewriteCfg env path s).1.isSome = true ∧
      (rewriteCfg env path s).2.cfgPerms = s.cfgPerms) := by
  cases h : env.cfgWriteOk <;> simp [rewriteCfg, h]

/-- C6 (witness): with a failing write phase the rewrite raises and the
permission bits are unchanged. -/
theorem rewrite_preserves_perms_w :
    (rewriteCfg envF "/mnt/boot/grub/grub.cfg" stEmpty).2.cfgPerms
      = stEmpty.cfgPerms ∧
    (rewriteCfg envF "/mnt/boot/grub/grub.cfg" stEmpty).1.isSome = true ∧
    (rewriteCfg envF "/mnt/boot/grub/grub.cfg" stEmpty).2.cfgPerms
      = stEmpty.cfgPerms :=
  ⟨(rewrite_preserves_perms envF "/mnt/boot/grub/grub.cfg" stEmpty).1,
   (rewrite_preserves_perms envF "/mnt/boot/grub/grub.cfg" stEmpty).2 rfl⟩

/-- C7 (counterexample): in the pure-translation variant, the first partition
carrying the marker is not simply "selected and left mounted": on a device
whose unmounted partition 1 carries `boot`, the scan mounts it, translates
it, and then aborts with an `AttributeError` from the cleanup's
`self.target` reference instead of returning the selection. -/
theorem uuid_scan_not_selected_cx :
    (uuidInstall plugin0 tA "/src" "/mnt" [] none none none stEmpty).1 =
      .error (.attributeError "UUIDPlugin object has no attribute target") ∧
    lookupMount (uuidInstall plugin0 tA "/src" "/mnt" [] none none none
      stEmpty).2.mounts 1 = some "/mnt" ∧
    Event.unmounted 1
      ∉ (uuidInstall plugin0 tA "/src" "/mnt" [] none none none
        stEmpty).2.trace := by
  decide

/-- C7 (amended, restricted to the grub2 variant): the scan probes partitions
in enumeration order; a candidate whose probe raises a `DeviceError` (mount
failure) is logged with a warning and the scan continues; the first candidate
whose probe finds the marker is selected, left mounted, and no later
partition is probed; if all candidates are exhausted without a match, a
`CopyError` naming the device is raised. -/
theorem grub_locator_spec (t : Target) (tm : String) (l1 l2 : List Nat)
    (i j : Nat) (s : St) :
    ((∀ k ∈ l1, probeFinds t s.mounts k = false) →
      probeFinds t s.mounts i = true →
      (grubScan t tm (l1 ++ i :: l2) s).1 = .ok i ∧
      (lookupMount (grubScan t tm (l1 ++ i :: l2) s).2.mounts i).isSome
        = true ∧
      probedOf (grubScan t tm (l1 ++ i :: l2) s).2.trace
        = probedOf s.trace ++ (l1 ++ [i])) ∧
    ((∀ k ∈ l1, probeFinds t s.mounts k = false) → j ∉ l1 →
      lookupMount s.mounts j = none → t.mountOk j = false →
      Event.warned ("Could not mount partition " ++ toString j ++
        ". Assumed to not be the partition grub is on.")
        ∈ (grubScan t tm (l1 ++ j :: l2) s).2.trace) ∧
    ((∀ k ∈ l1 ++ i :: l2, probeFinds t s.mounts k = false) →
      (grubScan t tm (l1 ++ i :: l2) s).1 =
        .error (.copyError ("Could not find partition with 'boot/grub' " ++
          "folder on device " ++ t.device))) :=
  ⟨fun h1 h2 => grubScan_found t tm i l2 l1 s h1 h2,
   fun h1 h2 h3 h4 => grubScan_warn t tm j l2 l1 s h1 h2 h3 h4,
   fun h => grubScan_exhaust t tm (l1 ++ i :: l2) s h⟩

/-- C7 (witness): on `tE` (partition 1 unmountable, partition 2 with the
marker, partition 3 after it) the scan warns about 1, selects 2, leaves it
mounted, and never probes 3; on the markerless `tD` it raises the
`CopyError`. -/
theorem grub_locator_spec_w :
    ((grubScan tE "/mnt" ([1] ++ 2 :: [3]) stEmpty).1 = .ok 2 ∧
     (lookupMount (grubScan tE "/mnt" ([1] ++ 2 :: [3]) stEmpty).2.mounts
       2).isSome = true ∧
     probedOf (grubScan tE "/mnt" ([1] ++ 2 :: [3]) stEmpty).2.trace
       = probedOf stEmpty.trace ++ ([1] ++ [2])) ∧
    Event.warned ("Could not mount partition " ++ toString 1 ++
      ". Assumed to not be the partition grub is on.")
      ∈ (grubScan tE "/mnt" ([] ++ 1 :: [2, 3]) stEmpty).2.trace ∧
    (grubScan tD "/mnt" ([] ++ 1 :: []) stEmpty).1 =
      .error (.copyError ("Could not find partition with 'boot/grub' " ++
        "folder on device " ++ tD.device)) :=
  ⟨(grub_locator_spec tE "/mnt" [1] [3] 2 0 stEmpty).1 (by decide) (by decide),
   (grub_locator_spec tE "/mnt" [] [2, 3] 0 1 stEmpty).2.1 (by decide)
     (by decide) (by decide) (by decide),
   (grub_locator_spec tD "/mnt" [] [] 1 0 stEmpty).2.2 (by decide)⟩

/-- C8: in the pure-translation variant with hints, a hinted boot partition
has its entire root `/` translated (no `/boot` subtree), a hinted root
partition (without boot hint) has its `/boot` subtree translated, and a
hinted EFI partition additionally has its entire contents translated in
either case. -/
theorem uuid_hinted_translation (plugin : IBootPlugin) (t : Target)
    (sm tm : String) (excl : List Nat) (b r efi : Option Nat) (s : St) :
    (∀ bp, b = some bp →
      uuidInstall plugin t sm tm excl b r efi s =
        (.ok (), { s with trace := (s.trace ++ [.translated bp "/"]
          ++ efiEvents efi) })) ∧
    (b = none → ∀ rp, r = some rp →
      uuidInstall plugin t sm tm excl b r efi s =
        (.ok (), { s with trace := (s.trace ++ [.translated rp "/boot"]
          ++ efiEvents efi) })) := by
  constructor
  · rintro bp rfl
    cases r <;> cases efi <;>
      simp [uuidInstall, uuidEfiStep, translateUuidEvent, addTrace, efiEvents]
  · rintro rfl rp rfl
    cases efi <;>
      simp [uuidInstall, uuidEfiStep, translateUuidEvent, addTrace, efiEvents]

/-- C8 (witness): boot partition 2 hinted and EFI partition 3 present:
partition 2's root and partition 3's contents are translated, and no
`/boot` subtree of partition 2 is. -/
theorem uuid_hinted_translation_w :
    uuidInstall plugin0 tA "/src" "/mnt" [] (some 2) none (some 3) stEmpty =
      (.ok (), { stEmpty with trace := (stEmpty.trace ++ [.translated 2 "/"]
        ++ efiEvents (some 3)) }) :=
  (uuid_hinted_translation plugin0 tA "/src" "/mnt" [] (some 2) none (some 3)
    stEmpty).1 2 rfl

/-- C9: evaluation at the failing input.  The claim — each scan-examined
partition whose mount was established by the invocation is unmounted before
the loop proceeds, with unmount failures logged — is what the spec intends,
but the code's cleanup reads `self.target` (the plugin object, which carries
no `target` attribute) instead of `copier.target`: on a device whose
unmounted, markerless partition 1 mounts successfully, the invocation
aborts with an `AttributeError`, partition 1 stays mounted, and partition 2
is never probed. -/
theorem uuid_cleanup_attr_failure :
    (uuidInstall plugin0 tH "/src" "/mnt" [] none none none stEmpty).1 =
      .error (.attributeError "UUIDPlugin object has no attribute target") ∧
    lookupMount (uuidInstall plugin0 tH "/src" "/mnt" [] none none none
      stEmpty).2.mounts 1 = some "/mnt" ∧
    Event.unmounted 1
      ∉ (uuidInstall plugin0 tH "/src" "/mnt" [] none none none
        stEmpty).2.trace ∧
    Event.probed 2
      ∉ (uuidInstall plugin0 tH "/src" "/mnt" [] none none none
        stEmpty).2.trace := by
  decide

/-- C10: neither plugin reads `source_mnt` or `excluded_partitions`: the
entire outcome (result, mount table, file state, trace) is identical for any
two values of these arguments. -/
theorem unused_args_irrelevant (env : Env) (plugin : IBootPlugin)
    (t : Target) (tm : String) (b r efi : Option Nat) (s : St)
    (sm1 sm2 : String) (ex1 ex2 : List Nat) :
    grubInstall env sm1 tm ex1 b r efi s
      = grubInstall env sm2 tm ex2 b r efi s ∧
    uuidInstall plugin t sm1 tm ex1 b r efi s
      = uuidInstall plugin t sm2 tm ex2 b r efi s :=
  ⟨rfl, rfl⟩
